import Mathlib

/-!
Verification development for the human-oversight approval gate
(package app/human_oversight: constants.py, logging_utils.py, approval.py,
decorator.py).

The Python code is shallowly embedded: each Python function becomes a Lean
function of the same name.  Python dictionaries become association lists
(insertion-ordered, like CPython dicts), Python exceptions become an
Except-String channel (the string is str(exception)), the mutable audit sink
and the wall clock become an explicit GateSt record threaded through each
function, and the single outbound HTTP call of one gate invocation becomes a
TransportResult environment value describing what the network would do.
-/

namespace HumanOversight

/-- Model of a Python runtime value as it matters to the gate: JSON-style
atoms, and opaque objects (class instances, lambdas, ...) that json.dumps
cannot encode, remembered by their runtime type name. -/
inductive PyValue where
  | str (s : String)
  | int (n : Int)
  | bool (b : Bool)
  | pyNone
  | obj (tyName : String)
deriving DecidableEq, Repr

/-- Whether json.dumps succeeds on the value (atoms encode; opaque objects
raise TypeError). -/
def PyValue.jsonSerializable : PyValue → Bool
  | .obj _ => false
  | _ => true

/-- Python type(value).__name__. -/
def PyValue.tname : PyValue → String
  | .str _ => "str"
  | .int _ => "int"
  | .bool _ => "bool"
  | .pyNone => "NoneType"
  | .obj t => t

/-- Positional-argument tuple of a call. -/
abbrev Args := List PyValue

/-- Keyword-argument dict of a call (insertion-ordered, distinct keys). -/
abbrev Kwargs := List (String × PyValue)

/-- constants.py: ApprovalStatus, a closed string enumeration. -/
inductive ApprovalStatus where
  | INITIATED
  | APPROVED
  | REJECTED
  | TIMEOUT
  | ERROR
  | EXECUTED
  | EXECUTION_FAILED
deriving DecidableEq, Repr

/-- constants.py: the .value string token of each ApprovalStatus member;
exact spelling is part of the audit contract. -/
def ApprovalStatus.value : ApprovalStatus → String
  | .INITIATED => "Initiated"
  | .APPROVED => "Approved"
  | .REJECTED => "Rejected"
  | .TIMEOUT => "Timeout"
  | .ERROR => "Error"
  | .EXECUTED => "Executed"
  | .EXECUTION_FAILED => "ExecutionFailed"

/-- The seven status tokens, in declaration order. -/
def statusTokens : List String :=
  [ApprovalStatus.INITIATED.value, ApprovalStatus.APPROVED.value,
   ApprovalStatus.REJECTED.value, ApprovalStatus.TIMEOUT.value,
   ApprovalStatus.ERROR.value, ApprovalStatus.EXECUTED.value,
   ApprovalStatus.EXECUTION_FAILED.value]

/-- constants.py: TIMEOUT_SECONDS, the HTTP request timeout. -/
def TIMEOUT_SECONDS : Nat := 120

/-- constants.py: DEFAULT_REFUSAL_VALUE. -/
def DEFAULT_REFUSAL_VALUE : PyValue :=
  .str "Approval denied or timed out via Human Oversight Approval Gate."

/-- approval.py create_serializable_parameters: rebuild the kwargs dict,
keeping each value whose single key/value pair json.dumps accepts and
replacing each value it rejects (TypeError, OverflowError, ValueError are
caught) by the sentinel string built from the runtime type name. -/
def create_serializable_parameters (kwargs : Kwargs) : Kwargs :=
  kwargs.map fun nv =>
    if nv.2.jsonSerializable then nv
    else (nv.1, PyValue.str ("<unserializable: " ++ nv.2.tname ++ ">"))

/-- CPython dict assignment d[k] = v: overwrite in place if the key exists
(keeping its position), otherwise append at the end. -/
def dictSet (d : Kwargs) (k : String) (v : PyValue) : Kwargs :=
  if d.any (fun p => p.1 == k) then
    d.map (fun p => if p.1 == k then (k, v) else p)
  else d ++ [(k, v)]

/-- CPython dict.update(upd): assign each pair of upd in order. -/
def dictUpdate (d : Kwargs) (upd : Kwargs) : Kwargs :=
  upd.foldl (fun acc kv => dictSet acc kv.1 kv.2) d

/-- decorator.py wrapper, positional-argument loop: for i, arg in
enumerate(args), store arg under param_names[i] when i is in range and under
the synthetic name "arg" ++ i otherwise.  The raw value is stored: positional
values do not pass through create_serializable_parameters. -/
def addPositionalArgs (param_names : List String) (args : Args) (i : Nat)
    (parameters : Kwargs) : Kwargs :=
  match args with
  | [] => parameters
  | arg :: rest =>
      let key := if h : i < param_names.length then param_names.get ⟨i, h⟩
                 else "arg" ++ toString i
      addPositionalArgs param_names rest (i + 1) (dictSet parameters key arg)

/-- decorator.py wrapper, lines 157-173: the combined parameters dict --
positional values mapped to declared names (raw), then
parameters.update(create_serializable_parameters(kwargs)). -/
def buildWrapperParameters (param_names : List String) (args : Args)
    (kwargs : Kwargs) : Kwargs :=
  dictUpdate (addPositionalArgs param_names args 0 []) (create_serializable_parameters kwargs)

/-- logging_utils.py / approval.py: one audit record (an Azure-table-style
dict).  Timestamps are modelled as ticks of a monotone clock; a field whose
key Python leaves absent is Option.none.  The Status field holds the raw
string the code stored there (Option.none models storing Python None). -/
structure LogEvent where
  PartitionKey : String
  RowKey : String
  Status : Option String
  Timestamp : Nat
  ActionDescription : Option String
  Parameters : Option Kwargs
  Approver : Option String
  CompletionTimestamp : Option Nat
  Error : Option String
  ExecutionTimestamp : Option Nat
deriving DecidableEq, Repr

/-- The runtime type name of the first value in the event that json.dumps
rejects (dict iteration order), or Option.none when the whole event encodes.
Every field of a log event other than Parameters is a string, a number or
None, so only Parameters can make json.dumps fail. -/
def LogEvent.firstUnserializableType (ev : LogEvent) : Option String :=
  match ev.Parameters with
  | Option.none => Option.none
  | some ps => (ps.find? fun nv => !nv.2.jsonSerializable).map (fun nv => nv.2.tname)

/-- approval.py: the JSON decision payload of a 2xx response, a string-keyed
dict.  A missing key and a null value both make .get return None, so string
values suffice. -/
structure ApprovalResponse where
  entries : List (String × String)
deriving DecidableEq, Repr

/-- Python dict.get(k): Option.none when the key is absent. -/
def ApprovalResponse.get (r : ApprovalResponse) (k : String) : Option String :=
  (r.entries.find? fun kv => kv.1 == k).map (fun kv => kv.2)

/-- Python dict.get(k, d). -/
def ApprovalResponse.getD (r : ApprovalResponse) (k d : String) : String :=
  (r.get k).getD d

/-- Python truthiness of the dict: nonempty. -/
def ApprovalResponse.isTruthy (r : ApprovalResponse) : Bool :=
  !r.entries.isEmpty

/-- Environment of one gate invocation: what the single requests.post call
would do.  requestException covers every requests.exceptions.RequestException
(connection failure, non-2xx via raise_for_status, malformed JSON body);
success carries the parsed JSON body, Option.none modelling a JSON null. -/
inductive TransportResult where
  | timeout
  | requestException (msg : String)
  | success (body : Option ApprovalResponse)
deriving DecidableEq, Repr

/-- Whether the transport call fails (timeout or RequestException). -/
def TransportResult.isFailure : TransportResult → Bool
  | .timeout => true
  | .requestException _ => true
  | .success _ => false

/-- approval.py create_approval_payload result: the JSON body of the
approval request. -/
structure ApprovalPayload where
  agentName : String
  actionDescription : String
  parameters : Kwargs
  approverEmails : List String
  correlationId : String
  timestamp : Nat
deriving DecidableEq, Repr

/-- The observable state of one gate invocation: the audit events that
reached the sink in emission order, the clock (each get_current_timestamp
call returns the tick and advances it), the calls made to the wrapped target
operation, and the approval requests posted to the service. -/
structure GateSt where
  trail : List LogEvent
  clock : Nat
  calls : List (Args × Kwargs)
  sentRequests : List ApprovalPayload
deriving DecidableEq, Repr

/-- The state at the start of a gate invocation. -/
def initialGateSt : GateSt := { trail := [], clock := 0, calls := [], sentRequests := [] }

/-- logging_utils.py get_current_timestamp: datetime.now(timezone.utc),
modelled as the next clock tick. -/
def get_current_timestamp (st : GateSt) : Nat × GateSt :=
  (st.clock, { st with clock := st.clock + 1 })

/-- logging_utils.py log_approval_event: logger.info("Approval Event: %s",
json.dumps(event_data)).  json.dumps is evaluated at the call site, so an
event it cannot encode raises TypeError out of this function; when it
encodes, the logging facility absorbs any handler failure and the event
reaches the sink. -/
def log_approval_event (event_data : LogEvent) (st : GateSt) :
    Except String Unit × GateSt :=
  match event_data.firstUnserializableType with
  | Option.none => (Except.ok (), { st with trail := st.trail ++ [event_data] })
  | some t => (Except.error ("Object of type " ++ t ++ " is not JSON serializable"), st)

/-- logging_utils.py create_initial_log_event. -/
def create_initial_log_event (agent_name : String) (correlation_id : String)
    (action_description : String) (parameters : Kwargs) (now : Nat) : LogEvent :=
  { PartitionKey := agent_name
    RowKey := correlation_id
    Status := some "Initiated"
    Timestamp := now
    ActionDescription := some action_description
    Parameters := some parameters
    Approver := Option.none
    CompletionTimestamp := Option.none
    Error := Option.none
    ExecutionTimestamp := Option.none }

/-- approval.py create_approval_payload (get_current_timestamp advances the
clock). -/
def create_approval_payload (agent_name : String) (action_description : String)
    (parameters : Kwargs) (approver_emails : List String)
    (correlation_id : String) (st : GateSt) : ApprovalPayload × GateSt :=
  let (ts, st) := get_current_timestamp st
  ({ agentName := agent_name
     actionDescription := action_description
     parameters := parameters
     approverEmails := approver_emails
     correlationId := correlation_id
     timestamp := ts }, st)

/-- approval.py send_approval_request: posts the payload once and classifies
the outcome; Timeout and RequestException are caught and become
(False, None), a 2xx response becomes (True, parsed body). -/
def send_approval_request (payload : ApprovalPayload) (transport : TransportResult)
    (st : GateSt) : (Bool × Option ApprovalResponse) × GateSt :=
  let st := { st with sentRequests := st.sentRequests ++ [payload] }
  match transport with
  | .timeout => ((false, Option.none), st)
  | .requestException _ => ((false, Option.none), st)
  | .success body => ((true, body), st)

/-- approval.py update_log_with_response, failure branch: the source decides
the status with isinstance(success, requests.exceptions.Timeout), but
success is the boolean returned by send_approval_request, and a bool is
never an instance of the exception class, so the test is constantly false. -/
def isinstanceTimeout (success : Bool) : Bool :=
  let _ := success
  false

/-- approval.py update_log_with_response. -/
def update_log_with_response (log_event : LogEvent) (success : Bool)
    (response_data : Option ApprovalResponse) (st : GateSt) : LogEvent × GateSt :=
  if !success then
    let status := if isinstanceTimeout success then ApprovalStatus.TIMEOUT.value
                  else ApprovalStatus.ERROR.value
    let (ts, st) := get_current_timestamp st
    let log1 := { log_event with Status := some status, CompletionTimestamp := some ts }
    if !isinstanceTimeout success then
      ({ log1 with Error := some "HTTP request failed" }, st)
    else (log1, st)
  else
    match response_data with
    | some rd =>
        if rd.isTruthy then
          let (ts, st) := get_current_timestamp st
          ({ log_event with
              Status := rd.get "status"
              Approver := some (rd.getD "approver" "Unknown")
              CompletionTimestamp := some ts }, st)
        else (log_event, st)
    | Option.none => (log_event, st)

/-- approval.py request_approval: send, update the working record, emit it.
A fault raised by log_approval_event propagates to the caller. -/
def request_approval (payload : ApprovalPayload) (transport : TransportResult)
    (log_event : LogEvent) (st : GateSt) :
    Except String (Bool × Option ApprovalResponse × LogEvent) × GateSt :=
  let ((success, response_data), st) := send_approval_request payload transport st
  let (updated_log, st) := update_log_with_response log_event success response_data st
  match log_approval_event updated_log st with
  | (Except.ok _, st) => (Except.ok (success, response_data, updated_log), st)
  | (Except.error e, st) => (Except.error e, st)

/-- approval.py is_approval_granted. -/
def is_approval_granted (response_data : ApprovalResponse) : Bool :=
  response_data.get "status" == some ApprovalStatus.APPROVED.value

/-- Python str(status) for the f-string in format_approval_result_message. -/
def pyStrOfOption : Option String → String
  | Option.none => "None"
  | some s => s

/-- approval.py format_approval_result_message (feeds logger messages only). -/
def format_approval_result_message (response_data : ApprovalResponse)
    (correlation_id : String) : String :=
  let approval_status := response_data.get "status"
  let approver := response_data.getD "approver" "Unknown"
  if approval_status == some ApprovalStatus.APPROVED.value then
    "Approval received (ID: " ++ correlation_id ++ ") from " ++ approver ++ "."
  else
    let status_message :=
      if approval_status == some ApprovalStatus.REJECTED.value then "rejected"
      else "timed out or status unclear"
    let approver_info :=
      if approval_status == some ApprovalStatus.REJECTED.value then " by " ++ approver
      else ". Status: " ++ pyStrOfOption approval_status
    "Approval " ++ status_message ++ " (ID: " ++ correlation_id ++ ")" ++ approver_info

/-- A wrapped target operation: from the received args and kwargs either a
return value or a raised fault (carried as str(exception)). -/
abbrev FuncModel := Args → Kwargs → Except String PyValue

/-- Call the wrapped target operation, recording the invocation; a raised
fault enters the Except channel. -/
def callFunc (func : FuncModel) (args : Args) (kwargs : Kwargs) (st : GateSt) :
    Except String PyValue × GateSt :=
  let st := { st with calls := st.calls ++ [(args, kwargs)] }
  (func args kwargs, st)

/-- decorator.py execute_function_with_logging, except-block: update the
working record to EXECUTION_FAILED with Error = str(exception) and an
execution timestamp, emit it, then re-raise.  When the emission itself
raises (the record still cannot be encoded), that new fault supersedes the
re-raise, exactly as a raise inside a Python except block would. -/
def executionFailureHandler (exc : String) (log_event : LogEvent) (st : GateSt) :
    Except String PyValue × GateSt :=
  let (ts, st) := get_current_timestamp st
  let ev := { log_event with
              Status := some ApprovalStatus.EXECUTION_FAILED.value
              Error := some exc
              ExecutionTimestamp := some ts }
  match log_approval_event ev st with
  | (Except.ok _, st) => (Except.error exc, st)
  | (Except.error e2, st) => (Except.error e2, st)

/-- decorator.py execute_function_with_logging: run the target, emit
EXECUTED on normal return; the except block (executionFailureHandler)
catches a fault raised by the target or by the EXECUTED emission. -/
def execute_function_with_logging (func : FuncModel) (args : Args)
    (kwargs : Kwargs) (log_event : LogEvent) (correlation_id : String)
    (st : GateSt) : Except String PyValue × GateSt :=
  let _ := correlation_id
  match callFunc func args kwargs st with
  | (Except.ok result, st) =>
      let (ts, st) := get_current_timestamp st
      let ev := { log_event with
                  Status := some ApprovalStatus.EXECUTED.value
                  ExecutionTimestamp := some ts }
      match log_approval_event ev st with
      | (Except.ok _, st) => (Except.ok result, st)
      | (Except.error e, st) => executionFailureHandler e log_event st
  | (Except.error e, st) => executionFailureHandler e log_event st

/-- decorator.py handle_approval_response: refusal when the payload is None
or an empty dict, execution when is_approval_granted, refusal otherwise. -/
def handle_approval_response (response_data : Option ApprovalResponse)
    (func : FuncModel) (args : Args) (kwargs : Kwargs) (log_event : LogEvent)
    (correlation_id : String) (refusal_return_value : PyValue) (st : GateSt) :
    Except String PyValue × GateSt :=
  match response_data with
  | Option.none => (Except.ok refusal_return_value, st)
  | some rd =>
      if !rd.isTruthy then (Except.ok refusal_return_value, st)
      else if is_approval_granted rd then
        let _message := format_approval_result_message rd correlation_id
        execute_function_with_logging func args kwargs log_event correlation_id st
      else
        let _message := format_approval_result_message rd correlation_id
        (Except.ok refusal_return_value, st)

/-- decorator.py wrapper: one invocation of the gate on the wrapped target.
param_names is list(inspect.signature(func).parameters.keys()); transport is
what the network would do for this invocation's single approval request. -/
def wrapper (agent_name : String) (action_description : String)
    (approver_emails : List String) (refusal_return_value : PyValue)
    (param_names : List String) (func : FuncModel) (correlation_id : String)
    (transport : TransportResult) (args : Args) (kwargs : Kwargs)
    (st : GateSt) : Except String PyValue × GateSt :=
  let parameters := buildWrapperParameters param_names args kwargs
  let (ts0, st) := get_current_timestamp st
  let log_event := create_initial_log_event agent_name correlation_id
      action_description parameters ts0
  match log_approval_event log_event st with
  | (Except.error e, st) => (Except.error e, st)
  | (Except.ok _, st) =>
      let (payload, st) := create_approval_payload agent_name action_description
          parameters approver_emails correlation_id st
      match request_approval payload transport log_event st with
      | (Except.error e, st) => (Except.error e, st)
      | (Except.ok (success, response_data, log_event2), st) =>
          if !success then (Except.ok refusal_return_value, st)
          else handle_approval_response response_data func args kwargs
              log_event2 correlation_id refusal_return_value st

/-- One gate invocation run from a fresh state. -/
def gateInvoke (agent_name : String) (action_description : String)
    (approver_emails : List String) (refusal_return_value : PyValue)
    (param_names : List String) (func : FuncModel) (correlation_id : String)
    (transport : TransportResult) (args : Args) (kwargs : Kwargs) :
    Except String PyValue × GateSt :=
  wrapper agent_name action_description approver_emails refusal_return_value
    param_names func correlation_id transport args kwargs initialGateSt

/-- The Status fields of the emitted audit trail, in emission order. -/
def trailStatuses (st : GateSt) : List (Option String) :=
  st.trail.map (fun ev => ev.Status)

/-- Python truthiness of the optional HO_LOGIC_APP_URL string: None and the
empty string are falsy. -/
def pyTruthyStr : Option String → Bool
  | Option.none => false
  | some s => !(s == "")

/-- decorator.py validate_configuration: raise ValueError when
HO_LOGIC_APP_URL is unset or empty. -/
def validate_configuration (ho_logic_app_url : Option String) : Except String Unit :=
  if !pyTruthyStr ho_logic_app_url then
    Except.error ("HO_LOGIC_APP_URL environment variable must be set to use the "
      ++ "approval_gate decorator. Set this variable to the URL of your approval Logic App.")
  else Except.ok ()

/-- The configuration captured by one application of the approval_gate
decorator. -/
structure GateConfig where
  agent_name : String
  action_description : String
  approver_emails : List String
  refusal_return_value : PyValue
deriving DecidableEq, Repr

/-- decorator.py approval_gate: validate_configuration runs at decoration
time, before the wrapper closure exists, so a missing endpoint raises here
-- before any invocation and before any approval request is built or sent.
On success the constructed gate is the wrapper closure over the given
configuration. -/
def approval_gate (ho_logic_app_url : Option String) (cfg : GateConfig) :
    Except String GateConfig :=
  match validate_configuration ho_logic_app_url with
  | Except.error e => Except.error e
  | Except.ok _ => Except.ok cfg

/-! Run characterization: closed forms of gateInvoke for each shape of the
environment, used by the claim theorems below. -/

/-- The INITIATED audit event of an invocation (clock tick 0). -/
def initEvent (agent_name action_description correlation_id : String)
    (param_names : List String) (args : Args) (kwargs : Kwargs) : LogEvent :=
  create_initial_log_event agent_name correlation_id action_description
    (buildWrapperParameters param_names args kwargs) 0

/-- The approval request an invocation posts (built at clock tick 1). -/
def sentPayload (agent_name action_description : String)
    (approver_emails : List String) (correlation_id : String)
    (param_names : List String) (args : Args) (kwargs : Kwargs) : ApprovalPayload :=
  { agentName := agent_name
    actionDescription := action_description
    parameters := buildWrapperParameters param_names args kwargs
    approverEmails := approver_emails
    correlationId := correlation_id
    timestamp := 1 }

/-- When some value of the combined parameter map is not JSON-serializable,
the INITIATED emission raises and the whole invocation aborts: nothing is
logged, no request is sent, the target is never called. -/
lemma gateInvoke_unserializable_param
    (agent_name action_description : String) (approver_emails : List String)
    (refusal_return_value : PyValue) (param_names : List String)
    (func : FuncModel) (correlation_id : String) (transport : TransportResult)
    (args : Args) (kwargs : Kwargs) (w : String × PyValue)
    (h : (buildWrapperParameters param_names args kwargs).find?
      (fun nv => !nv.2.jsonSerializable) = some w) :
    gateInvoke agent_name action_description approver_emails refusal_return_value
      param_names func correlation_id transport args kwargs =
    (Except.error ("Object of type " ++ w.2.tname ++ " is not JSON serializable"),
     { trail := [], clock := 1, calls := [], sentRequests := [] }) := by
  simp [gateInvoke, wrapper, get_current_timestamp, initialGateSt,
    log_approval_event, LogEvent.firstUnserializableType,
    create_initial_log_event, h]

/-- When the parameter map is clean and the transport call fails, the
invocation returns the refusal value; the trail is the INITIATED event
followed by a terminal event carrying status Error and the error note. -/
lemma gateInvoke_transport_failure
    (agent_name action_description : String) (approver_emails : List String)
    (refusal_return_value : PyValue) (param_names : List String)
    (func : FuncModel) (correlation_id : String) (transport : TransportResult)
    (args : Args) (kwargs : Kwargs)
    (hser : (buildWrapperParameters param_names args kwargs).find?
      (fun nv => !nv.2.jsonSerializable) = Option.none)
    (hfail : transport.isFailure = true) :
    gateInvoke agent_name action_description approver_emails refusal_return_value
      param_names func correlation_id transport args kwargs =
    (Except.ok refusal_return_value,
     { trail := [initEvent agent_name action_description correlation_id param_names args kwargs,
                 { initEvent agent_name action_description correlation_id param_names args kwargs with
                   Status := some ApprovalStatus.ERROR.value
                   CompletionTimestamp := some 2
                   Error := some "HTTP request failed" }]
       clock := 3
       calls := []
       sentRequests := [sentPayload agent_name action_description approver_emails
         correlation_id param_names args kwargs] }) := by
  cases transport with
  | success body => simp [TransportResult.isFailure] at hfail
  | timeout =>
      simp [gateInvoke, wrapper, get_current_timestamp, initialGateSt,
        log_approval_event, LogEvent.firstUnserializableType,
        create_initial_log_event, create_approval_payload, request_approval,
        send_approval_request, update_log_with_response, isinstanceTimeout,
        initEvent, sentPayload, hser]
  | requestException m =>
      simp [gateInvoke, wrapper, get_current_timestamp, initialGateSt,
        log_approval_event, LogEvent.firstUnserializableType,
        create_initial_log_event, create_approval_payload, request_approval,
        send_approval_request, update_log_with_response, isinstanceTimeout,
        initEvent, sentPayload, hser]

/-- A clean-parameter invocation whose transport succeeds with a JSON-null
body: refusal value, and the second emitted event is the INITIATED record
unchanged. -/
lemma gateInvoke_success_null_body
    (agent_name action_description : String) (approver_emails : List String)
    (refusal_return_value : PyValue) (param_names : List String)
    (func : FuncModel) (correlation_id : String)
    (args : Args) (kwargs : Kwargs)
    (hser : (buildWrapperParameters param_names args kwargs).find?
      (fun nv => !nv.2.jsonSerializable) = Option.none) :
    gateInvoke agent_name action_description approver_emails refusal_return_value
      param_names func correlation_id (TransportResult.success Option.none) args kwargs =
    (Except.ok refusal_return_value,
     { trail := [initEvent agent_name action_description correlation_id param_names args kwargs,
                 initEvent agent_name action_description correlation_id param_names args kwargs]
       clock := 2
       calls := []
       sentRequests := [sentPayload agent_name action_description approver_emails
         correlation_id param_names args kwargs] }) := by
  simp [gateInvoke, wrapper, get_current_timestamp, initialGateSt,
    log_approval_event, LogEvent.firstUnserializableType,
    create_initial_log_event, create_approval_payload, request_approval,
    send_approval_request, update_log_with_response, handle_approval_response,
    initEvent, sentPayload, hser]

/-- A clean-parameter invocation whose transport succeeds with an empty
decision dict: same as a null body. -/
lemma gateInvoke_success_empty_body
    (agent_name action_description : String) (approver_emails : List String)
    (refusal_return_value : PyValue) (param_names : List String)
    (func : FuncModel) (correlation_id : String)
    (args : Args) (kwargs : Kwargs)
    (hser : (buildWrapperParameters param_names args kwargs).find?
      (fun nv => !nv.2.jsonSerializable) = Option.none) :
    gateInvoke agent_name action_description approver_emails refusal_return_value
      param_names func correlation_id
      (TransportResult.success (some { entries := [] })) args kwargs =
    (Except.ok refusal_return_value,
     { trail := [initEvent agent_name action_description correlation_id param_names args kwargs,
                 initEvent agent_name action_description correlation_id param_names args kwargs]
       clock := 2
       calls := []
       sentRequests := [sentPayload agent_name action_description approver_emails
         correlation_id param_names args kwargs] }) := by
  simp [gateInvoke, wrapper, get_current_timestamp, initialGateSt,
    log_approval_event, LogEvent.firstUnserializableType,
    create_initial_log_event, create_approval_payload, request_approval,
    send_approval_request, update_log_with_response, handle_approval_response,
    ApprovalResponse.isTruthy, initEvent, sentPayload, hser]

/-- The terminal event written after a successful transport call whose
decision payload rd is nonempty: the raw payload status, the approver (or
"Unknown"), and a completion timestamp at clock tick 2. -/
def decisionEvent (agent_name action_description correlation_id : String)
    (param_names : List String) (args : Args) (kwargs : Kwargs)
    (rd : ApprovalResponse) : LogEvent :=
  { initEvent agent_name action_description correlation_id param_names args kwargs with
    Status := rd.get "status"
    Approver := some (rd.getD "approver" "Unknown")
    CompletionTimestamp := some 2 }

/-- A clean-parameter invocation, transport success, nonempty payload whose
status is not Approved: refusal value, no call, trail INITIATED then the
decision event carrying the raw payload status. -/
lemma gateInvoke_success_not_granted
    (agent_name action_description : String) (approver_emails : List String)
    (refusal_return_value : PyValue) (param_names : List String)
    (func : FuncModel) (correlation_id : String)
    (args : Args) (kwargs : Kwargs) (rd : ApprovalResponse)
    (hser : (buildWrapperParameters param_names args kwargs).find?
      (fun nv => !nv.2.jsonSerializable) = Option.none)
    (hne : rd.isTruthy = true)
    (hng : is_approval_granted rd = false) :
    gateInvoke agent_name action_description approver_emails refusal_return_value
      param_names func correlation_id (TransportResult.success (some rd)) args kwargs =
    (Except.ok refusal_return_value,
     { trail := [initEvent agent_name action_description correlation_id param_names args kwargs,
                 decisionEvent agent_name action_description correlation_id
                   param_names args kwargs rd]
       clock := 3
       calls := []
       sentRequests := [sentPayload agent_name action_description approver_emails
         correlation_id param_names args kwargs] }) := by
  simp [gateInvoke, wrapper, get_current_timestamp, initialGateSt,
    log_approval_event, LogEvent.firstUnserializableType,
    create_initial_log_event, create_approval_payload, request_approval,
    send_approval_request, update_log_with_response, handle_approval_response,
    initEvent, sentPayload, decisionEvent, hser, hne, hng]

/-- A clean-parameter invocation, transport success, decision Approved,
target returns v: the result is v, the target was called once with the
original args and kwargs, and the trail is INITIATED, the Approved decision
event, then EXECUTED with an execution timestamp. -/
lemma gateInvoke_granted_ok
    (agent_name action_description : String) (approver_emails : List String)
    (refusal_return_value : PyValue) (param_names : List String)
    (func : FuncModel) (correlation_id : String)
    (args : Args) (kwargs : Kwargs) (rd : ApprovalResponse) (v : PyValue)
    (hser : (buildWrapperParameters param_names args kwargs).find?
      (fun nv => !nv.2.jsonSerializable) = Option.none)
    (hg : is_approval_granted rd = true)
    (hf : func args kwargs = Except.ok v) :
    gateInvoke agent_name action_description approver_emails refusal_return_value
      param_names func correlation_id (TransportResult.success (some rd)) args kwargs =
    (Except.ok v,
     { trail := [initEvent agent_name action_description correlation_id param_names args kwargs,
                 decisionEvent agent_name action_description correlation_id
                   param_names args kwargs rd,
                 { decisionEvent agent_name action_description correlation_id
                     param_names args kwargs rd with
                   Status := some ApprovalStatus.EXECUTED.value
                   ExecutionTimestamp := some 3 }]
       clock := 4
       calls := [(args, kwargs)]
       sentRequests := [sentPayload agent_name action_description approver_emails
         correlation_id param_names args kwargs] }) := by
  have hne : rd.isTruthy = true := by
    rcases rd with ⟨entries⟩
    cases entries with
    | nil => simp [is_approval_granted, ApprovalResponse.get] at hg
    | cons a l => simp [ApprovalResponse.isTruthy]
  simp [gateInvoke, wrapper, get_current_timestamp, initialGateSt,
    log_approval_event, LogEvent.firstUnserializableType,
    create_initial_log_event, create_approval_payload, request_approval,
    send_approval_request, update_log_with_response, handle_approval_response,
    execute_function_with_logging, callFunc,
    initEvent, sentPayload, decisionEvent, hser, hne, hg, hf]

/-- A clean-parameter invocation, transport success, decision Approved,
target raises e: the fault is re-raised, the target was called once, and the
trail ends in EXECUTION_FAILED carrying Error = e and an execution
timestamp. -/
lemma gateInvoke_granted_raises
    (agent_name action_description : String) (approver_emails : List String)
    (refusal_return_value : PyValue) (param_names : List String)
    (func : FuncModel) (correlation_id : String)
    (args : Args) (kwargs : Kwargs) (rd : ApprovalResponse) (e : String)
    (hser : (buildWrapperParameters param_names args kwargs).find?
      (fun nv => !nv.2.jsonSerializable) = Option.none)
    (hg : is_approval_granted rd = true)
    (hf : func args kwargs = Except.error e) :
    gateInvoke agent_name action_description approver_emails refusal_return_value
      param_names func correlation_id (TransportResult.success (some rd)) args kwargs =
    (Except.error e,
     { trail := [initEvent agent_name action_description correlation_id param_names args kwargs,
                 decisionEvent agent_name action_description correlation_id
                   param_names args kwargs rd,
                 { decisionEvent agent_name action_description correlation_id
                     param_names args kwargs rd with
                   Status := some ApprovalStatus.EXECUTION_FAILED.value
                   Error := some e
                   ExecutionTimestamp := some 3 }]
       clock := 4
       calls := [(args, kwargs)]
       sentRequests := [sentPayload agent_name action_description approver_emails
         correlation_id param_names args kwargs] }) := by
  have hne : rd.isTruthy = true := by
    rcases rd with ⟨entries⟩
    cases entries with
    | nil => simp [is_approval_granted, ApprovalResponse.get] at hg
    | cons a l => simp [ApprovalResponse.isTruthy]
  simp [gateInvoke, wrapper, get_current_timestamp, initialGateSt,
    log_approval_event, LogEvent.firstUnserializableType,
    create_initial_log_event, create_approval_payload, request_approval,
    send_approval_request, update_log_with_response, handle_approval_response,
    execute_function_with_logging, callFunc, executionFailureHandler,
    initEvent, sentPayload, decisionEvent, hser, hne, hg, hf]

/-- A clean parameter map is exactly one on which the unserializable-value
search fails. -/
lemma find_unser_eq_none_iff (ps : Kwargs) :
    ps.find? (fun nv => !nv.2.jsonSerializable) = Option.none ↔
    ∀ nv ∈ ps, nv.2.jsonSerializable = true := by
  rw [List.find?_eq_none]
  constructor
  · intro h nv hm
    have := h nv hm
    simpa using this
  · intro h nv hm
    simpa using h nv hm

/-- If an invocation posted its approval request, the INITIATED emission
succeeded, so every value of the combined parameter map is serializable. -/
lemma paramsClean_of_sent
    (agent_name action_description : String) (approver_emails : List String)
    (refusal_return_value : PyValue) (param_names : List String)
    (func : FuncModel) (correlation_id : String) (transport : TransportResult)
    (args : Args) (kwargs : Kwargs)
    (h : (gateInvoke agent_name action_description approver_emails
      refusal_return_value param_names func correlation_id transport args
      kwargs).2.sentRequests ≠ []) :
    (buildWrapperParameters param_names args kwargs).find?
      (fun nv => !nv.2.jsonSerializable) = Option.none := by
  cases hf : (buildWrapperParameters param_names args kwargs).find?
      (fun nv => !nv.2.jsonSerializable) with
  | none => rfl
  | some w =>
      exfalso
      apply h
      rw [gateInvoke_unserializable_param agent_name action_description
        approver_emails refusal_return_value param_names func correlation_id
        transport args kwargs w hf]

/-- C5: the parameter serializer is total over arbitrary named values; every
entry whose value fails JSON encoding is replaced by the sentinel string
built from the runtime type name, entries that encode are passed through
unchanged, and consequently every value of the output is transport-safe. -/
theorem C5_serializer_total_with_sentinels (kwargs : Kwargs) :
    (∀ nv ∈ create_serializable_parameters kwargs, nv.2.jsonSerializable = true)
    ∧ (∀ nv ∈ kwargs, nv.2.jsonSerializable = true →
        nv ∈ create_serializable_parameters kwargs)
    ∧ (∀ nv ∈ kwargs, nv.2.jsonSerializable = false →
        (nv.1, PyValue.str ("<unserializable: " ++ nv.2.tname ++ ">"))
          ∈ create_serializable_parameters kwargs) := by
  refine ⟨?_, ?_, ?_⟩
  · intro nv h
    rcases List.mem_map.1 h with ⟨a, ha, rfl⟩
    by_cases hs : a.2.jsonSerializable = true
    · simp [hs]
    · have hs' : a.2.jsonSerializable = false := by simpa using hs
      simp only [hs', Bool.false_eq_true, if_false]
      rfl
  · intro nv h hs
    exact List.mem_map.2 ⟨nv, h, by simp [hs]⟩
  · intro nv h hs
    exact List.mem_map.2 ⟨nv, h, by simp [hs]⟩

/-- C5 witness: the serializer on a concrete mixed dict. -/
theorem C5_serializer_total_with_sentinels_witness :
    ("obj", PyValue.str "<unserializable: NonSerializable>")
      ∈ create_serializable_parameters
        [("id", PyValue.int 123), ("obj", PyValue.obj "NonSerializable")]
    ∧ ("id", PyValue.int 123)
      ∈ create_serializable_parameters
        [("id", PyValue.int 123), ("obj", PyValue.obj "NonSerializable")] :=
  ⟨(C5_serializer_total_with_sentinels
      [("id", PyValue.int 123), ("obj", PyValue.obj "NonSerializable")]).2.2
      ("obj", PyValue.obj "NonSerializable") (by simp) rfl,
   (C5_serializer_total_with_sentinels
      [("id", PyValue.int 123), ("obj", PyValue.obj "NonSerializable")]).2.1
      ("id", PyValue.int 123) (by simp) rfl⟩

/-- C9: applying the approval_gate decorator with no configured endpoint
raises the configuration error at construction time (the validation runs
before the wrapper closure is built, so no invocation and no approval
request can have happened); with an endpoint configured, construction
succeeds and yields the gate. -/
theorem C9_construction_failfast (url : Option String) (cfg : GateConfig) :
    (pyTruthyStr url = false →
      approval_gate url cfg =
        Except.error ("HO_LOGIC_APP_URL environment variable must be set to use the "
          ++ "approval_gate decorator. Set this variable to the URL of your approval Logic App."))
    ∧ (pyTruthyStr url = true → approval_gate url cfg = Except.ok cfg) := by
  constructor
  · intro h
    simp [approval_gate, validate_configuration, h]
  · intro h
    simp [approval_gate, validate_configuration, h]

/-- C9 witness: unset endpoint rejected, configured endpoint accepted. -/
theorem C9_construction_failfast_witness :
    approval_gate Option.none
        { agent_name := "Ops", action_description := "act",
          approver_emails := ["a@x"], refusal_return_value := DEFAULT_REFUSAL_VALUE } =
      Except.error ("HO_LOGIC_APP_URL environment variable must be set to use the "
        ++ "approval_gate decorator. Set this variable to the URL of your approval Logic App.")
    ∧ approval_gate (some "https://logicapp.example")
        { agent_name := "Ops", action_description := "act",
          approver_emails := ["a@x"], refusal_return_value := DEFAULT_REFUSAL_VALUE } =
      Except.ok
        { agent_name := "Ops", action_description := "act",
          approver_emails := ["a@x"], refusal_return_value := DEFAULT_REFUSAL_VALUE } :=
  ⟨(C9_construction_failfast Option.none _).1 rfl,
   (C9_construction_failfast (some "https://logicapp.example") _).2 (by decide)⟩

/-- C3: evaluation at the failing input.  On a transport timeout the code
returns the refusal value but logs the terminal audit event with status
Error -- not Timeout -- and attaches the error note: the source decides the
status with isinstance(success, requests.exceptions.Timeout) where success
is a bool, which is constantly false, so the Timeout branch is dead. -/
theorem C3_timeout_misclassified_as_error :
    (gateInvoke "Ops" "Delete user" ["a@x"] DEFAULT_REFUSAL_VALUE ["user_id"]
        (fun _ _ => Except.ok (PyValue.str "done")) "cid-c3"
        TransportResult.timeout [PyValue.str "1"] []).1 =
      Except.ok DEFAULT_REFUSAL_VALUE
    ∧ trailStatuses (gateInvoke "Ops" "Delete user" ["a@x"] DEFAULT_REFUSAL_VALUE
        ["user_id"] (fun _ _ => Except.ok (PyValue.str "done")) "cid-c3"
        TransportResult.timeout [PyValue.str "1"] []).2 =
      [some ApprovalStatus.INITIATED.value, some ApprovalStatus.ERROR.value]
    ∧ ((gateInvoke "Ops" "Delete user" ["a@x"] DEFAULT_REFUSAL_VALUE ["user_id"]
        (fun _ _ => Except.ok (PyValue.str "done")) "cid-c3"
        TransportResult.timeout [PyValue.str "1"] []).2.trail.map
          (fun ev => ev.Error)) =
      [Option.none, some "HTTP request failed"]
    ∧ isinstanceTimeout false = false ∧ isinstanceTimeout true = false := by
  refine ⟨rfl, rfl, rfl, rfl, rfl⟩

/-- C6: evaluation at the failing input.  A non-serializable value passed
positionally is placed raw into the combined parameter map -- only keyword
arguments pass through create_serializable_parameters -- so the map is not
transport-safe, and the INITIATED emission itself raises TypeError out of
the gate: no sentinel, no audit event, no request. -/
theorem C6_positional_args_bypass_serializer :
    buildWrapperParameters ["x"] [PyValue.obj "function"] [] =
      [("x", PyValue.obj "function")]
    ∧ (PyValue.obj "function").jsonSerializable = false
    ∧ (gateInvoke "Ops" "act" ["a@x"] DEFAULT_REFUSAL_VALUE ["x"]
        (fun _ _ => Except.ok (PyValue.str "done")) "cid-c6"
        (TransportResult.success (some { entries :=
          [("status", "Approved"), ("approver", "bob@x")] }))
        [PyValue.obj "function"] []).1 =
      Except.error "Object of type function is not JSON serializable"
    ∧ (gateInvoke "Ops" "act" ["a@x"] DEFAULT_REFUSAL_VALUE ["x"]
        (fun _ _ => Except.ok (PyValue.str "done")) "cid-c6"
        (TransportResult.success (some { entries :=
          [("status", "Approved"), ("approver", "bob@x")] }))
        [PyValue.obj "function"] []).2 =
      { trail := [], clock := 1, calls := [], sentRequests := [] } := by
  refine ⟨rfl, rfl, rfl, rfl⟩

/-- A granted decision pins the payload status to the Approved token. -/
lemma status_eq_of_granted (rd : ApprovalResponse)
    (hg : is_approval_granted rd = true) : rd.get "status" = some "Approved" := by
  simpa [is_approval_granted, ApprovalStatus.value] using hg

/-- C1: whenever the invocation's approval call happens and succeeds with a
decision payload whose status is the Approved token, the gate invokes the
wrapped operation exactly once with the original args and kwargs, passes its
return value through unchanged, and the audit trail is exactly INITIATED,
APPROVED, EXECUTED in that order. -/
theorem C1_approved_executes_and_passes_through
    (agent_name action_description : String) (approver_emails : List String)
    (refusal_return_value : PyValue) (param_names : List String)
    (func : FuncModel) (correlation_id : String) (transport : TransportResult)
    (args : Args) (kwargs : Kwargs) (rd : ApprovalResponse) (v : PyValue)
    (hsent : (gateInvoke agent_name action_description approver_emails
      refusal_return_value param_names func correlation_id transport args
      kwargs).2.sentRequests ≠ [])
    (htr : transport = TransportResult.success (some rd))
    (hg : is_approval_granted rd = true)
    (hf : func args kwargs = Except.ok v) :
    (gateInvoke agent_name action_description approver_emails
      refusal_return_value param_names func correlation_id transport args
      kwargs).1 = Except.ok v
    ∧ (gateInvoke agent_name action_description approver_emails
        refusal_return_value param_names func correlation_id transport args
        kwargs).2.calls = [(args, kwargs)]
    ∧ trailStatuses (gateInvoke agent_name action_description approver_emails
        refusal_return_value param_names func correlation_id transport args
        kwargs).2 =
      [some ApprovalStatus.INITIATED.value, some ApprovalStatus.APPROVED.value,
       some ApprovalStatus.EXECUTED.value] := by
  subst htr
  have hser := paramsClean_of_sent agent_name action_description approver_emails
    refusal_return_value param_names func correlation_id
    (TransportResult.success (some rd)) args kwargs hsent
  rw [gateInvoke_granted_ok agent_name action_description approver_emails
    refusal_return_value param_names func correlation_id args kwargs rd v
    hser hg hf]
  refine ⟨rfl, rfl, ?_⟩
  simp [trailStatuses, initEvent, decisionEvent, create_initial_log_event,
    status_eq_of_granted rd hg, ApprovalStatus.value]

/-- C1 witness: Scenario A at concrete inputs. -/
theorem C1_approved_executes_and_passes_through_witness :
    (gateInvoke "Ops" "Delete user" ["a@x"] DEFAULT_REFUSAL_VALUE ["user_id"]
      (fun _ _ => Except.ok (PyValue.str "done")) "cid-1"
      (TransportResult.success (some { entries :=
        [("status", "Approved"), ("approver", "bob@x")] }))
      [PyValue.str "1"] []).1 = Except.ok (PyValue.str "done")
    ∧ (gateInvoke "Ops" "Delete user" ["a@x"] DEFAULT_REFUSAL_VALUE ["user_id"]
        (fun _ _ => Except.ok (PyValue.str "done")) "cid-1"
        (TransportResult.success (some { entries :=
          [("status", "Approved"), ("approver", "bob@x")] }))
        [PyValue.str "1"] []).2.calls = [([PyValue.str "1"], [])]
    ∧ trailStatuses (gateInvoke "Ops" "Delete user" ["a@x"] DEFAULT_REFUSAL_VALUE
        ["user_id"] (fun _ _ => Except.ok (PyValue.str "done")) "cid-1"
        (TransportResult.success (some { entries :=
          [("status", "Approved"), ("approver", "bob@x")] }))
        [PyValue.str "1"] []).2 =
      [some ApprovalStatus.INITIATED.value, some ApprovalStatus.APPROVED.value,
       some ApprovalStatus.EXECUTED.value] :=
  C1_approved_executes_and_passes_through "Ops" "Delete user" ["a@x"]
    DEFAULT_REFUSAL_VALUE ["user_id"] (fun _ _ => Except.ok (PyValue.str "done"))
    "cid-1" (TransportResult.success (some { entries :=
      [("status", "Approved"), ("approver", "bob@x")] }))
    [PyValue.str "1"] [] { entries := [("status", "Approved"), ("approver", "bob@x")] }
    (PyValue.str "done") (by decide) rfl (by decide) rfl

/-- C4: when the approval call happened, succeeded and was granted but the
wrapped operation raises, the gate re-raises exactly that fault, and the
last audit event emitted before re-raising has status EXECUTION_FAILED, an
Error field equal to the fault's string representation, and an execution
timestamp. -/
theorem C4_target_fault_reraised_after_logging
    (agent_name action_description : String) (approver_emails : List String)
    (refusal_return_value : PyValue) (param_names : List String)
    (func : FuncModel) (correlation_id : String) (transport : TransportResult)
    (args : Args) (kwargs : Kwargs) (rd : ApprovalResponse) (e : String)
    (hsent : (gateInvoke agent_name action_description approver_emails
      refusal_return_value param_names func correlation_id transport args
      kwargs).2.sentRequests ≠ [])
    (htr : transport = TransportResult.success (some rd))
    (hg : is_approval_granted rd = true)
    (hf : func args kwargs = Except.error e) :
    (gateInvoke agent_name action_description approver_emails
      refusal_return_value param_names func correlation_id transport args
      kwargs).1 = Except.error e
    ∧ ∃ ev, (gateInvoke agent_name action_description approver_emails
        refusal_return_value param_names func correlation_id transport args
        kwargs).2.trail.getLast? = some ev
      ∧ ev.Status = some ApprovalStatus.EXECUTION_FAILED.value
      ∧ ev.Error = some e
      ∧ ∃ ts, ev.ExecutionTimestamp = some ts := by
  subst htr
  have hser := paramsClean_of_sent agent_name action_description approver_emails
    refusal_return_value param_names func correlation_id
    (TransportResult.success (some rd)) args kwargs hsent
  rw [gateInvoke_granted_raises agent_name action_description approver_emails
    refusal_return_value param_names func correlation_id args kwargs rd e
    hser hg hf]
  exact ⟨rfl, _, rfl, rfl, rfl, 3, rfl⟩

/-- C4 witness: a target that raises after approval, at concrete inputs. -/
theorem C4_target_fault_reraised_after_logging_witness :
    (gateInvoke "Ops" "Delete user" ["a@x"] DEFAULT_REFUSAL_VALUE ["user_id"]
      (fun _ _ => Except.error "Test error") "cid-4"
      (TransportResult.success (some { entries :=
        [("status", "Approved"), ("approver", "bob@x")] }))
      [PyValue.str "1"] []).1 = Except.error "Test error"
    ∧ ∃ ev, (gateInvoke "Ops" "Delete user" ["a@x"] DEFAULT_REFUSAL_VALUE
        ["user_id"] (fun _ _ => Except.error "Test error") "cid-4"
        (TransportResult.success (some { entries :=
          [("status", "Approved"), ("approver", "bob@x")] }))
        [PyValue.str "1"] []).2.trail.getLast? = some ev
      ∧ ev.Status = some ApprovalStatus.EXECUTION_FAILED.value
      ∧ ev.Error = some "Test error"
      ∧ ∃ ts, ev.ExecutionTimestamp = some ts :=
  C4_target_fault_reraised_after_logging "Ops" "Delete user" ["a@x"]
    DEFAULT_REFUSAL_VALUE ["user_id"] (fun _ _ => Except.error "Test error")
    "cid-4" (TransportResult.success (some { entries :=
      [("status", "Approved"), ("approver", "bob@x")] }))
    [PyValue.str "1"] [] { entries := [("status", "Approved"), ("approver", "bob@x")] }
    "Test error" (by decide) rfl (by decide) rfl

/-- C10: when the approval call happened and the transport succeeded but the
parsed decision payload is null or an empty dict, the gate returns the
refusal value without calling the target, and the second emitted audit
event is the INITIATED working record unchanged: status still Initiated, no
approver, no completion timestamp -- the trail never reaches a terminal
state. -/
theorem C10_empty_decision_refuses_without_terminal_event
    (agent_name action_description : String) (approver_emails : List String)
    (refusal_return_value : PyValue) (param_names : List String)
    (func : FuncModel) (correlation_id : String) (transport : TransportResult)
    (args : Args) (kwargs : Kwargs)
    (hsent : (gateInvoke agent_name action_description approver_emails
      refusal_return_value param_names func correlation_id transport args
      kwargs).2.sentRequests ≠ [])
    (hempty : transport = TransportResult.success Option.none
      ∨ transport = TransportResult.success (some { entries := [] })) :
    (gateInvoke agent_name action_description approver_emails
      refusal_return_value param_names func correlation_id transport args
      kwargs).1 = Except.ok refusal_return_value
    ∧ (gateInvoke agent_name action_description approver_emails
        refusal_return_value param_names func correlation_id transport args
        kwargs).2.calls = []
    ∧ ∃ ev, (gateInvoke agent_name action_description approver_emails
        refusal_return_value param_names func correlation_id transport args
        kwargs).2.trail = [ev, ev]
      ∧ ev.Status = some ApprovalStatus.INITIATED.value
      ∧ ev.Approver = Option.none
      ∧ ev.CompletionTimestamp = Option.none := by
  have hser := paramsClean_of_sent agent_name action_description approver_emails
    refusal_return_value param_names func correlation_id transport args kwargs hsent
  rcases hempty with htr | htr <;> subst htr
  · rw [gateInvoke_success_null_body agent_name action_description
      approver_emails refusal_return_value param_names func correlation_id
      args kwargs hser]
    exact ⟨rfl, rfl, _, rfl, rfl, rfl, rfl⟩
  · rw [gateInvoke_success_empty_body agent_name action_description
      approver_emails refusal_return_value param_names func correlation_id
      args kwargs hser]
    exact ⟨rfl, rfl, _, rfl, rfl, rfl, rfl⟩

/-- C10 witness: an empty decision dict at concrete inputs. -/
theorem C10_empty_decision_refuses_without_terminal_event_witness :
    (gateInvoke "Ops" "Delete user" ["a@x"] DEFAULT_REFUSAL_VALUE ["user_id"]
      (fun _ _ => Except.ok (PyValue.str "done")) "cid-10"
      (TransportResult.success (some { entries := [] }))
      [PyValue.str "1"] []).1 = Except.ok DEFAULT_REFUSAL_VALUE
    ∧ (gateInvoke "Ops" "Delete user" ["a@x"] DEFAULT_REFUSAL_VALUE ["user_id"]
        (fun _ _ => Except.ok (PyValue.str "done")) "cid-10"
        (TransportResult.success (some { entries := [] }))
        [PyValue.str "1"] []).2.calls = []
    ∧ ∃ ev, (gateInvoke "Ops" "Delete user" ["a@x"] DEFAULT_REFUSAL_VALUE
        ["user_id"] (fun _ _ => Except.ok (PyValue.str "done")) "cid-10"
        (TransportResult.success (some { entries := [] }))
        [PyValue.str "1"] []).2.trail = [ev, ev]
      ∧ ev.Status = some ApprovalStatus.INITIATED.value
      ∧ ev.Approver = Option.none
      ∧ ev.CompletionTimestamp = Option.none :=
  C10_empty_decision_refuses_without_terminal_event "Ops" "Delete user" ["a@x"]
    DEFAULT_REFUSAL_VALUE ["user_id"] (fun _ _ => Except.ok (PyValue.str "done"))
    "cid-10" (TransportResult.success (some { entries := [] }))
    [PyValue.str "1"] [] (by decide) (Or.inr rfl)

/-- C2: across one gate invocation the wrapped target executes at most once,
and it executes only when the transport call succeeded with a decision whose
status is the Approved token; when the call happened and the transport
failed, or it succeeded with a decision payload that is present but not
Approved (Rejected or any other status), the target is never called, the
gate returns the configured refusal value, and the audit trail is INITIATED
followed by the one terminal event (status Error on transport failure, the
payload's own status otherwise). -/
theorem C2_at_most_once_and_refusal_paths
    (agent_name action_description : String) (approver_emails : List String)
    (refusal_return_value : PyValue) (param_names : List String)
    (func : FuncModel) (correlation_id : String) (transport : TransportResult)
    (args : Args) (kwargs : Kwargs) :
    (gateInvoke agent_name action_description approver_emails
      refusal_return_value param_names func correlation_id transport args
      kwargs).2.calls.length ≤ 1
    ∧ ((gateInvoke agent_name action_description approver_emails
        refusal_return_value param_names func correlation_id transport args
        kwargs).2.calls ≠ [] →
        ∃ rd, transport = TransportResult.success (some rd)
          ∧ is_approval_granted rd = true)
    ∧ ((gateInvoke agent_name action_description approver_emails
        refusal_return_value param_names func correlation_id transport args
        kwargs).2.sentRequests ≠ [] → transport.isFailure = true →
        (gateInvoke agent_name action_description approver_emails
          refusal_return_value param_names func correlation_id transport args
          kwargs).1 = Except.ok refusal_return_value
        ∧ (gateInvoke agent_name action_description approver_emails
            refusal_return_value param_names func correlation_id transport args
            kwargs).2.calls = []
        ∧ trailStatuses (gateInvoke agent_name action_description approver_emails
            refusal_return_value param_names func correlation_id transport args
            kwargs).2 =
          [some ApprovalStatus.INITIATED.value, some ApprovalStatus.ERROR.value])
    ∧ (∀ rd, (gateInvoke agent_name action_description approver_emails
        refusal_return_value param_names func correlation_id transport args
        kwargs).2.sentRequests ≠ [] →
        transport = TransportResult.success (some rd) →
        rd.isTruthy = true → is_approval_granted rd = false →
        (gateInvoke agent_name action_description approver_emails
          refusal_return_value param_names func correlation_id transport args
          kwargs).1 = Except.ok refusal_return_value
        ∧ (gateInvoke agent_name action_description approver_emails
            refusal_return_value param_names func correlation_id transport args
            kwargs).2.calls = []
        ∧ trailStatuses (gateInvoke agent_name action_description approver_emails
            refusal_return_value param_names func correlation_id transport args
            kwargs).2 =
          [some ApprovalStatus.INITIATED.value, rd.get "status"]) := by
  cases hser : (buildWrapperParameters param_names args kwargs).find?
      (fun nv => !nv.2.jsonSerializable) with
  | some w =>
      rw [gateInvoke_unserializable_param agent_name action_description
        approver_emails refusal_return_value param_names func correlation_id
        transport args kwargs w hser]
      refine ⟨by simp, by simp, ?_, ?_⟩
      · intro hsent
        simp at hsent
      · intro rd hsent
        simp at hsent
  | none =>
      cases transport with
      | timeout =>
          rw [gateInvoke_transport_failure agent_name action_description
            approver_emails refusal_return_value param_names func correlation_id
            TransportResult.timeout args kwargs hser rfl]
          refine ⟨by simp, by simp, ?_, ?_⟩
          · intro _ _
            refine ⟨rfl, rfl, ?_⟩
            simp [trailStatuses, initEvent, create_initial_log_event,
              ApprovalStatus.value]
          · intro rd _ htr
            exact absurd htr (by simp)
      | requestException m =>
          rw [gateInvoke_transport_failure agent_name action_description
            approver_emails refusal_return_value param_names func correlation_id
            (TransportResult.requestException m) args kwargs hser rfl]
          refine ⟨by simp, by simp, ?_, ?_⟩
          · intro _ _
            refine ⟨rfl, rfl, ?_⟩
            simp [trailStatuses, initEvent, create_initial_log_event,
              ApprovalStatus.value]
          · intro rd _ htr
            exact absurd htr (by simp)
      | success body =>
          cases body with
          | none =>
              rw [gateInvoke_success_null_body agent_name action_description
                approver_emails refusal_return_value param_names func
                correlation_id args kwargs hser]
              refine ⟨by simp, by simp, ?_, ?_⟩
              · intro _ hfail
                simp [TransportResult.isFailure] at hfail
              · intro rd _ htr
                simp at htr
          | some rd0 =>
              by_cases hT : rd0.isTruthy = true
              · by_cases hG : is_approval_granted rd0 = true
                · cases hfv : func args kwargs with
                  | ok v =>
                      rw [gateInvoke_granted_ok agent_name action_description
                        approver_emails refusal_return_value param_names func
                        correlation_id args kwargs rd0 v hser hG hfv]
                      refine ⟨by simp, fun _ => ⟨rd0, rfl, hG⟩, ?_, ?_⟩
                      · intro _ hfail
                        simp [TransportResult.isFailure] at hfail
                      · intro rd _ htr hT2 hG2
                        have heq : rd0 = rd := by simpa using htr
                        subst heq
                        exact absurd hG (by simp [hG2])
                  | error e =>
                      rw [gateInvoke_granted_raises agent_name action_description
                        approver_emails refusal_return_value param_names func
                        correlation_id args kwargs rd0 e hser hG hfv]
                      refine ⟨by simp, fun _ => ⟨rd0, rfl, hG⟩, ?_, ?_⟩
                      · intro _ hfail
                        simp [TransportResult.isFailure] at hfail
                      · intro rd _ htr hT2 hG2
                        have heq : rd0 = rd := by simpa using htr
                        subst heq
                        exact absurd hG (by simp [hG2])
                · have hG' : is_approval_granted rd0 = false := by simpa using hG
                  rw [gateInvoke_success_not_granted agent_name action_description
                    approver_emails refusal_return_value param_names func
                    correlation_id args kwargs rd0 hser hT hG']
                  refine ⟨by simp, by simp, ?_, ?_⟩
                  · intro _ hfail
                    simp [TransportResult.isFailure] at hfail
                  · intro rd _ htr _ _
                    have heq : rd0 = rd := by simpa using htr
                    subst heq
                    refine ⟨rfl, rfl, ?_⟩
                    simp [trailStatuses, initEvent, decisionEvent,
                      create_initial_log_event, ApprovalStatus.value]
              · rcases rd0 with ⟨es⟩
                cases es with
                | cons a l => exact absurd rfl hT
                | nil =>
                    rw [gateInvoke_success_empty_body agent_name action_description
                      approver_emails refusal_return_value param_names func
                      correlation_id args kwargs hser]
                    refine ⟨by simp, by simp, ?_, ?_⟩
                    · intro _ hfail
                      simp [TransportResult.isFailure] at hfail
                    · intro rd _ htr hT2 _
                      have heq : ({ entries := [] } : ApprovalResponse) = rd := by
                        simpa using htr
                      rw [← heq] at hT2
                      simp [ApprovalResponse.isTruthy] at hT2

/-- C2 witness: Scenario B (Rejected) at concrete inputs, via the refusal
clause of the theorem. -/
theorem C2_at_most_once_and_refusal_paths_witness :
    (gateInvoke "Ops" "Delete user" ["a@x"] DEFAULT_REFUSAL_VALUE ["user_id"]
      (fun _ _ => Except.ok (PyValue.str "done")) "cid-2"
      (TransportResult.success (some { entries :=
        [("status", "Rejected"), ("approver", "carol@x")] }))
      [PyValue.str "1"] []).1 = Except.ok DEFAULT_REFUSAL_VALUE
    ∧ (gateInvoke "Ops" "Delete user" ["a@x"] DEFAULT_REFUSAL_VALUE ["user_id"]
        (fun _ _ => Except.ok (PyValue.str "done")) "cid-2"
        (TransportResult.success (some { entries :=
          [("status", "Rejected"), ("approver", "carol@x")] }))
        [PyValue.str "1"] []).2.calls = []
    ∧ trailStatuses (gateInvoke "Ops" "Delete user" ["a@x"] DEFAULT_REFUSAL_VALUE
        ["user_id"] (fun _ _ => Except.ok (PyValue.str "done")) "cid-2"
        (TransportResult.success (some { entries :=
          [("status", "Rejected"), ("approver", "carol@x")] }))
        [PyValue.str "1"] []).2 =
      [some ApprovalStatus.INITIATED.value,
       ApprovalResponse.get { entries :=
         [("status", "Rejected"), ("approver", "carol@x")] } "status"] :=
  (C2_at_most_once_and_refusal_paths "Ops" "Delete user" ["a@x"]
      DEFAULT_REFUSAL_VALUE ["user_id"] (fun _ _ => Except.ok (PyValue.str "done"))
      "cid-2" (TransportResult.success (some { entries :=
        [("status", "Rejected"), ("approver", "carol@x")] }))
      [PyValue.str "1"] []).2.2.2
    { entries := [("status", "Rejected"), ("approver", "carol@x")] }
    (by decide) rfl (by decide) (by decide)

/-- Whether an audit event's Status field holds one of the seven
ApprovalStatus tokens. -/
def LogEvent.statusIsToken (ev : LogEvent) : Bool :=
  match ev.Status with
  | some s => statusTokens.contains s
  | Option.none => false

/-- C7 counterexample: a transport success whose decision payload carries
the unrecognized status value Maybe.  The terminal audit event stores that
raw payload string in its Status field, which is not one of the seven
StatusModel tokens -- refuting the claim that every emitted event carries a
token of the closed enumeration. -/
theorem C7_counterexample_raw_payload_status_emitted :
    ((gateInvoke "Ops" "act" ["a@x"] DEFAULT_REFUSAL_VALUE ["user_id"]
      (fun _ _ => Except.ok (PyValue.str "done")) "cid-7x"
      (TransportResult.success (some { entries :=
        [("status", "Maybe"), ("approver", "dan@x")] }))
      [PyValue.str "1"] []).2.trail.map (fun ev => ev.statusIsToken)) =
      [true, false]
    ∧ trailStatuses (gateInvoke "Ops" "act" ["a@x"] DEFAULT_REFUSAL_VALUE
        ["user_id"] (fun _ _ => Except.ok (PyValue.str "done")) "cid-7x"
        (TransportResult.success (some { entries :=
          [("status", "Maybe"), ("approver", "dan@x")] }))
        [PyValue.str "1"] []).2 =
      [some ApprovalStatus.INITIATED.value, some "Maybe"]
    ∧ statusTokens.contains "Maybe" = false :=
  ⟨rfl, rfl, rfl⟩

/-- C7 as amended: every audit event the gate emits carries one of the seven
StatusModel tokens, except that the terminal event written after a transport
success copies the decision payload's raw status value (so an unrecognized
or missing payload status is stored verbatim instead of a token). -/
theorem C7_amended_statuses_are_tokens_or_raw_payload_status
    (agent_name action_description : String) (approver_emails : List String)
    (refusal_return_value : PyValue) (param_names : List String)
    (func : FuncModel) (correlation_id : String) (transport : TransportResult)
    (args : Args) (kwargs : Kwargs) :
    ∀ ev ∈ (gateInvoke agent_name action_description approver_emails
      refusal_return_value param_names func correlation_id transport args
      kwargs).2.trail,
      ev.statusIsToken = true
      ∨ ∃ rd, transport = TransportResult.success (some rd)
          ∧ ev.Status = rd.get "status" := by
  cases hser : (buildWrapperParameters param_names args kwargs).find?
      (fun nv => !nv.2.jsonSerializable) with
  | some w =>
      rw [gateInvoke_unserializable_param agent_name action_description
        approver_emails refusal_return_value param_names func correlation_id
        transport args kwargs w hser]
      intro ev hev
      simp at hev
  | none =>
      cases transport with
      | timeout =>
          rw [gateInvoke_transport_failure agent_name action_description
            approver_emails refusal_return_value param_names func correlation_id
            TransportResult.timeout args kwargs hser rfl]
          intro ev hev
          simp only [List.mem_cons, List.not_mem_nil, or_false] at hev
          rcases hev with hev | hev
          · left
            rw [hev]
            rfl
          · left
            rw [hev]
            rfl
      | requestException m =>
          rw [gateInvoke_transport_failure agent_name action_description
            approver_emails refusal_return_value param_names func correlation_id
            (TransportResult.requestException m) args kwargs hser rfl]
          intro ev hev
          simp only [List.mem_cons, List.not_mem_nil, or_false] at hev
          rcases hev with hev | hev
          · left
            rw [hev]
            rfl
          · left
            rw [hev]
            rfl
      | success body =>
          cases body with
          | none =>
              rw [gateInvoke_success_null_body agent_name action_description
                approver_emails refusal_return_value param_names func
                correlation_id args kwargs hser]
              intro ev hev
              simp only [List.mem_cons, List.not_mem_nil, or_false] at hev
              rcases hev with hev | hev
              · left
                rw [hev]
                rfl
              · left
                rw [hev]
                rfl
          | some rd0 =>
              by_cases hT : rd0.isTruthy = true
              · by_cases hG : is_approval_granted rd0 = true
                · cases hfv : func args kwargs with
                  | ok v =>
                      rw [gateInvoke_granted_ok agent_name action_description
                        approver_emails refusal_return_value param_names func
                        correlation_id args kwargs rd0 v hser hG hfv]
                      intro ev hev
                      simp only [List.mem_cons, List.not_mem_nil, or_false] at hev
                      rcases hev with hev | hev | hev
                      · left
                        rw [hev]
                        rfl
                      · right
                        exact ⟨rd0, rfl, by rw [hev]; rfl⟩
                      · left
                        rw [hev]
                        rfl
                  | error e =>
                      rw [gateInvoke_granted_raises agent_name action_description
                        approver_emails refusal_return_value param_names func
                        correlation_id args kwargs rd0 e hser hG hfv]
                      intro ev hev
                      simp only [List.mem_cons, List.not_mem_nil, or_false] at hev
                      rcases hev with hev | hev | hev
                      · left
                        rw [hev]
                        rfl
                      · right
                        exact ⟨rd0, rfl, by rw [hev]; rfl⟩
                      · left
                        rw [hev]
                        rfl
                · have hG' : is_approval_granted rd0 = false := by simpa using hG
                  rw [gateInvoke_success_not_granted agent_name action_description
                    approver_emails refusal_return_value param_names func
                    correlation_id args kwargs rd0 hser hT hG']
                  intro ev hev
                  simp only [List.mem_cons, List.not_mem_nil, or_false] at hev
                  rcases hev with hev | hev
                  · left
                    rw [hev]
                    rfl
                  · right
                    exact ⟨rd0, rfl, by rw [hev]; rfl⟩
              · rcases rd0 with ⟨es⟩
                cases es with
                | cons a l => exact absurd rfl hT
                | nil =>
                    rw [gateInvoke_success_empty_body agent_name action_description
                      approver_emails refusal_return_value param_names func
                      correlation_id args kwargs hser]
                    intro ev hev
                    simp only [List.mem_cons, List.not_mem_nil, or_false] at hev
                    rcases hev with hev | hev
                    · left
                      rw [hev]
                      rfl
                    · left
                      rw [hev]
                      rfl

/-- C7 amended witness: the INITIATED event of a concrete rejected run
carries a token. -/
theorem C7_amended_statuses_are_tokens_or_raw_payload_status_witness :
    (initEvent "Ops" "act" "cid-7w" ["user_id"] [PyValue.str "1"] []).statusIsToken = true
    ∨ ∃ rd, TransportResult.success (some ({ entries :=
        [("status", "Rejected"), ("approver", "carol@x")] } : ApprovalResponse)) =
        TransportResult.success (some rd)
      ∧ (initEvent "Ops" "act" "cid-7w" ["user_id"] [PyValue.str "1"] []).Status =
        rd.get "status" :=
  C7_amended_statuses_are_tokens_or_raw_payload_status "Ops" "act" ["a@x"]
    DEFAULT_REFUSAL_VALUE ["user_id"] (fun _ _ => Except.ok (PyValue.str "done"))
    "cid-7w" (TransportResult.success (some { entries :=
      [("status", "Rejected"), ("approver", "carol@x")] }))
    [PyValue.str "1"] []
    (initEvent "Ops" "act" "cid-7w" ["user_id"] [PyValue.str "1"] [])
    (by decide)

/-- C8 counterexample: an audit event that cannot be encoded for the sink
(a non-serializable positional value sits raw in the parameter map) makes
log_approval_event raise into the gate's control flow at the INITIATED
emission: the invocation aborts with the TypeError, no approval request is
sent and no decision is carried out -- refuting the claim that sink
emission never raises and the gate always still acts on its approval
decision. -/
theorem C8_counterexample_encoding_fault_aborts_gate :
    (gateInvoke "Payments" "Refund order" ["ops@x"] DEFAULT_REFUSAL_VALUE
      ["callback"] (fun _ _ => Except.ok (PyValue.str "refunded")) "cid-8x"
      (TransportResult.success (some { entries :=
        [("status", "Approved"), ("approver", "bob@x")] }))
      [PyValue.obj "function"] []).1 =
      Except.error "Object of type function is not JSON serializable"
    ∧ (gateInvoke "Payments" "Refund order" ["ops@x"] DEFAULT_REFUSAL_VALUE
        ["callback"] (fun _ _ => Except.ok (PyValue.str "refunded")) "cid-8x"
        (TransportResult.success (some { entries :=
          [("status", "Approved"), ("approver", "bob@x")] }))
        [PyValue.obj "function"] []).2.sentRequests = []
    ∧ (gateInvoke "Payments" "Refund order" ["ops@x"] DEFAULT_REFUSAL_VALUE
        ["callback"] (fun _ _ => Except.ok (PyValue.str "refunded")) "cid-8x"
        (TransportResult.success (some { entries :=
          [("status", "Approved"), ("approver", "bob@x")] }))
        [PyValue.obj "function"] []).2.calls = []
    ∧ (gateInvoke "Payments" "Refund order" ["ops@x"] DEFAULT_REFUSAL_VALUE
        ["callback"] (fun _ _ => Except.ok (PyValue.str "refunded")) "cid-8x"
        (TransportResult.success (some { entries :=
          [("status", "Approved"), ("approver", "bob@x")] }))
        [PyValue.obj "function"] []).2.trail = [] :=
  ⟨rfl, rfl, rfl, rfl⟩

/-- C8 as amended: when every value of the invocation's combined parameter
map is JSON-encodable (which is the only way an audit event of this gate can
fail to encode), emitting audit events never raises into the gate's control
flow: the approval request is sent, and the only fault that can cross the
gate boundary is one raised by the wrapped target itself.  When an event
cannot be encoded, the emission raises and the gate does not carry out its
decision (see the counterexample). -/
theorem C8_amended_logging_harmless_when_encodable
    (agent_name action_description : String) (approver_emails : List String)
    (refusal_return_value : PyValue) (param_names : List String)
    (func : FuncModel) (correlation_id : String) (transport : TransportResult)
    (args : Args) (kwargs : Kwargs)
    (hall : ∀ nv ∈ buildWrapperParameters param_names args kwargs,
      nv.2.jsonSerializable = true) :
    (gateInvoke agent_name action_description approver_emails
      refusal_return_value param_names func correlation_id transport args
      kwargs).2.sentRequests ≠ []
    ∧ ∀ e, (gateInvoke agent_name action_description approver_emails
        refusal_return_value param_names func correlation_id transport args
        kwargs).1 = Except.error e →
      func args kwargs = Except.error e := by
  have hser : (buildWrapperParameters param_names args kwargs).find?
      (fun nv => !nv.2.jsonSerializable) = Option.none :=
    (find_unser_eq_none_iff (buildWrapperParameters param_names args kwargs)).2 hall
  cases transport with
  | timeout =>
      rw [gateInvoke_transport_failure agent_name action_description
        approver_emails refusal_return_value param_names func correlation_id
        TransportResult.timeout args kwargs hser rfl]
      refine ⟨by simp, ?_⟩
      intro e he
      simp at he
  | requestException m =>
      rw [gateInvoke_transport_failure agent_name action_description
        approver_emails refusal_return_value param_names func correlation_id
        (TransportResult.requestException m) args kwargs hser rfl]
      refine ⟨by simp, ?_⟩
      intro e he
      simp at he
  | success body =>
      cases body with
      | none =>
          rw [gateInvoke_success_null_body agent_name action_description
            approver_emails refusal_return_value param_names func correlation_id
            args kwargs hser]
          refine ⟨by simp, ?_⟩
          intro e he
          simp at he
      | some rd0 =>
          by_cases hT : rd0.isTruthy = true
          · by_cases hG : is_approval_granted rd0 = true
            · cases hfv : func args kwargs with
              | ok v =>
                  rw [gateInvoke_granted_ok agent_name action_description
                    approver_emails refusal_return_value param_names func
                    correlation_id args kwargs rd0 v hser hG hfv]
                  refine ⟨by simp, ?_⟩
                  intro e he
                  simp at he
              | error e0 =>
                  rw [gateInvoke_granted_raises agent_name action_description
                    approver_emails refusal_return_value param_names func
                    correlation_id args kwargs rd0 e0 hser hG hfv]
                  refine ⟨by simp, ?_⟩
                  intro e he
                  have : e0 = e := by simpa using he
                  rw [← this]
            · have hG' : is_approval_granted rd0 = false := by simpa using hG
              rw [gateInvoke_success_not_granted agent_name action_description
                approver_emails refusal_return_value param_names func
                correlation_id args kwargs rd0 hser hT hG']
              refine ⟨by simp, ?_⟩
              intro e he
              simp at he
          · rcases rd0 with ⟨es⟩
            cases es with
            | cons a l => exact absurd rfl hT
            | nil =>
                rw [gateInvoke_success_empty_body agent_name action_description
                  approver_emails refusal_return_value param_names func
                  correlation_id args kwargs hser]
                refine ⟨by simp, ?_⟩
                intro e he
                simp at he

/-- C8 amended witness: a concrete approved run with encodable parameters
sends its request. -/
theorem C8_amended_logging_harmless_when_encodable_witness :
    (gateInvoke "Payments" "Refund order" ["ops@x"] DEFAULT_REFUSAL_VALUE
      ["order_id"] (fun _ _ => Except.ok (PyValue.str "refunded")) "cid-8w"
      (TransportResult.success (some { entries :=
        [("status", "Approved"), ("approver", "bob@x")] }))
      [PyValue.str "42"] []).2.sentRequests ≠ []
    ∧ ∀ e, (gateInvoke "Payments" "Refund order" ["ops@x"] DEFAULT_REFUSAL_VALUE
        ["order_id"] (fun _ _ => Except.ok (PyValue.str "refunded")) "cid-8w"
        (TransportResult.success (some { entries :=
          [("status", "Approved"), ("approver", "bob@x")] }))
        [PyValue.str "42"] []).1 = Except.error e →
      (fun (_ : Args) (_ : Kwargs) => Except.ok (PyValue.str "refunded")) [PyValue.str "42"] [] = Except.error e :=
  C8_amended_logging_harmless_when_encodable "Payments" "Refund order" ["ops@x"]
    DEFAULT_REFUSAL_VALUE ["order_id"]
    (fun _ _ => Except.ok (PyValue.str "refunded")) "cid-8w"
    (TransportResult.success (some { entries :=
      [("status", "Approved"), ("approver", "bob@x")] }))
    [PyValue.str "42"] [] (by decide)

end HumanOversight
